import Mathlib

/-!
# csnake.python.Token

A shallow embedding of `src/csnake/python/token.cpp`, the host-runtime wrapper
around a preprocessor token, together with the properties of it that the
specification states.

Conventions of the embedding:

* byte strings (`std::string`, `char const*`, Python `bytes`) are lists of
  naturals below 256; Python `str` objects are lists of code points, which may
  hold surrogates;
* C `int` is 32 bits wide and C `long` 64 bits wide;
* engine token objects live in an explicit heap, a pointer is an `Option Nat`
  with `none` for `NULL`, and a dereference of a pointer that is not live has
  no defined result (`none`);
* the interpreter's error indicator (`PyErr_Occurred`) is part of the state.
-/

namespace csnake.python

/-! ## Text: byte strings, code points, UTF-8 -/

/-- Byte strings: every element is meant to be below 256. -/
abbrev Bytes := List Nat

/-- Python `str` values: a sequence of code points. -/
abbrev PyUnicode := List Nat

/-- Code points of a literal of the source text. -/
def lit (s : String) : List Nat := s.toList.map Char.toNat

/-- Decimal rendering with explicit fuel. -/
def decimalAux : Nat → Nat → List Nat → List Nat
  | 0, _, acc => acc
  | fuel + 1, n, acc =>
    if n < 10 then (48 + n) :: acc
    else decimalAux fuel (n / 10) ((48 + n % 10) :: acc)

/-- Decimal digits of a natural number, as code points. -/
def decimal (n : Nat) : List Nat := decimalAux (n + 1) n []

/-- A Unicode scalar value: a code point that is no surrogate and is at most U+10FFFF. -/
def isScalar (cp : Nat) : Bool := cp < 0xD800 || (0xE000 ≤ cp && cp < 0x110000)

/-- UTF-8 encoding of one scalar value. -/
def utf8EncodeOne (cp : Nat) : Bytes :=
  if cp < 0x80 then [cp]
  else if cp < 0x800 then [0xC0 + cp / 64, 0x80 + cp % 64]
  else if cp < 0x10000 then [0xE0 + cp / 4096, 0x80 + cp / 64 % 64, 0x80 + cp % 64]
  else [0xF0 + cp / 262144, 0x80 + cp / 4096 % 64, 0x80 + cp / 64 % 64, 0x80 + cp % 64]

/-- UTF-8 encoding of a sequence of scalar values. -/
def utf8Encode : PyUnicode → Bytes
  | [] => []
  | cp :: cps => utf8EncodeOne cp ++ utf8Encode cps

/-- A UTF-8 continuation byte, `80..BF`. -/
def isCont (b : Nat) : Bool := 0x80 ≤ b && b ≤ 0xBF

/-- Strict UTF-8 decoding (well-formed sequences of the Unicode standard only: no
overlong forms, no surrogates, nothing above U+10FFFF); `none` on malformed input. -/
def utf8Decode : Bytes → Option PyUnicode
  | [] => some []
  | b0 :: bs =>
    if b0 < 0x80 then (utf8Decode bs).map (b0 :: ·)
    else match bs with
      | [] => none
      | b1 :: bs1 =>
        if 0xC2 ≤ b0 ∧ b0 ≤ 0xDF then
          if isCont b1 then (utf8Decode bs1).map (((b0 - 0xC0) * 64 + (b1 - 0x80)) :: ·)
          else none
        else match bs1 with
          | [] => none
          | b2 :: bs2 =>
            if 0xE0 ≤ b0 ∧ b0 ≤ 0xEF then
              if isCont b1 ∧ isCont b2 ∧ (b0 = 0xE0 → 0xA0 ≤ b1) ∧ (b0 = 0xED → b1 ≤ 0x9F) then
                (utf8Decode bs2).map
                  (((b0 - 0xE0) * 4096 + (b1 - 0x80) * 64 + (b2 - 0x80)) :: ·)
              else none
            else match bs2 with
              | [] => none
              | b3 :: bs3 =>
                if 0xF0 ≤ b0 ∧ b0 ≤ 0xF4 then
                  if isCont b1 ∧ isCont b2 ∧ isCont b3 ∧ (b0 = 0xF0 → 0x90 ≤ b1)
                      ∧ (b0 = 0xF4 → b1 ≤ 0x8F) then
                    (utf8Decode bs3).map
                      (((b0 - 0xF0) * 262144 + (b1 - 0x80) * 4096 + (b2 - 0x80) * 64
                        + (b3 - 0x80)) :: ·)
                  else none
                else none

/-- The bytes a `char const*` denotes: everything before the first NUL byte. -/
def c_str (bs : Bytes) : Bytes := bs.takeWhile (· ≠ 0)

/-! ## C integers -/

/-- Value of `x` after conversion to a signed integer type of `w` bits. -/
def wrapSigned (w : Nat) (x : Int) : Int := (x + 2 ^ (w - 1)) % 2 ^ w - 2 ^ (w - 1)

/-- Value of `x` after conversion to an unsigned integer type of `w` bits. -/
def wrapUnsigned (w : Nat) (x : Int) : Int := x % 2 ^ w

/-- Largest C `int`. -/
def INT_MAX : Int := 2 ^ 31 - 1

/-- Smallest C `int`. -/
def INT_MIN : Int := -(2 ^ 31)

/-- Largest C `long`. -/
def LONG_MAX : Int := 2 ^ 63 - 1

/-- Smallest C `long`. -/
def LONG_MIN : Int := -(2 ^ 63)

/-! ## The host runtime -/

/-- Exceptions that the calls made by this file can leave in the error indicator. -/
inductive PyExc where
  | TypeError
  | OverflowError
  | UnicodeEncodeError
  | UnicodeDecodeError
  | MemoryError
  | Raised
  deriving DecidableEq, Repr

/-- Host values, as far as this file observes them: `None`, `int` objects, `str` objects,
and instances of any other class, given by what their `__str__` returns (`none`: it raises)
and what their `__index__` returns (`none`: the object is no integer). -/
inductive PyObject where
  | None
  | long (n : Int)
  | unicode (s : PyUnicode)
  | object (str : Option PyUnicode) (index : Option Int)
  deriving DecidableEq, Repr

/-- `PyObject_Str`: the `str()` of a host value, or the exception it raises. -/
def PyObject_Str : PyObject → Except PyExc PyUnicode
  | .None => .ok (lit "None")
  | .long n => .ok (if n < 0 then 45 :: decimal n.natAbs else decimal n.toNat)
  | .unicode s => .ok s
  | .object (some s) _ => .ok s
  | .object none _ => .error .Raised

/-- `PyUnicode_AsUTF8String`: strict UTF-8 encoding; a surrogate cannot be encoded. -/
def PyUnicode_AsUTF8String (s : PyUnicode) : Except PyExc Bytes :=
  if s.all isScalar then .ok (utf8Encode s) else .error .UnicodeEncodeError

/-- Conversion of a host value to a C `long`, as `PyLong_AsLong` performs it. -/
def asLong : PyObject → Except PyExc Int
  | .long n => if LONG_MIN ≤ n ∧ n ≤ LONG_MAX then .ok n else .error .OverflowError
  | .object _ (some n) => if LONG_MIN ≤ n ∧ n ≤ LONG_MAX then .ok n else .error .OverflowError
  | _ => .error .TypeError

/-- Conversion of a host value for the `i` format unit of `PyArg_ParseTupleAndKeywords`:
a C `long` first, then the range check of C `int`. -/
def convert_i (v : PyObject) : Except PyExc Int :=
  match asLong v with
  | .error e => .error e
  | .ok n => if n > INT_MAX then .error .OverflowError
             else if n < INT_MIN then .error .OverflowError
             else .ok n

/-! ## The engine -/

/-- Source position of the engine, `csnake::core::token_type::position_type`. -/
structure position_type where
  file : Bytes
  line : Nat
  column : Nat
  deriving DecidableEq, Repr

/-- Modelled from the spec: the one-argument constructor `position_type("?")` belongs to the
engine, whose headers are not part of the sources; the specification gives the position it
builds as the unknown-source sentinel, line and column zero. -/
def position_type.ofFile (file : Bytes) : position_type := ⟨file, 0, 0⟩

/-- Engine token, `csnake::core::token_type`: classification id, lexeme and position. -/
structure token_type where
  id : Int
  value : Bytes
  position : position_type
  deriving DecidableEq, Repr

/-- What the sources use and do not declare: whether the underlying type of the 32-bit
enumeration `boost::wave::token_id` is signed, the kind-to-name table
`boost::wave::get_token_name`, the default-constructed engine token, what the host
runtime substitutes when `PyUnicode_FromFormat` meets bytes that are not UTF-8, and the
address of the `Py_None` object of the host runtime. -/
structure Env where
  enumSigned : Bool
  get_token_name : Int → Bytes
  default_token : token_type
  decodeReplace : Bytes → PyUnicode
  Py_None : Nat

/-- `static_cast<boost::wave::token_id>(x)`. -/
def static_cast_token_id (env : Env) (x : Int) : Int :=
  if env.enumSigned then wrapSigned 32 x else wrapUnsigned 32 x

/-- The values the enumeration type can hold. -/
def inEnumRange (env : Env) (x : Int) : Prop :=
  if env.enumSigned then -(2 ^ 31) ≤ x ∧ x < 2 ^ 31 else 0 ≤ x ∧ x < 2 ^ 32

instance (env : Env) (x : Int) : Decidable (inEnumRange env x) := by
  unfold inEnumRange; exact inferInstance

/-! ## Process state -/

/-- The state the wrapper works on: the live engine token objects by address, the next
address `new` hands out, and the error indicator of the host runtime. -/
structure Interp where
  heap : List (Nat × token_type)
  next : Nat
  err : Option PyExc
  deriving DecidableEq, Repr

/-- A state with nothing allocated and no error pending. -/
def Interp.init : Interp := ⟨[], 1, none⟩

/-- The `new` expression: allocates an engine token object. -/
def Interp.new (st : Interp) (t : token_type) : Nat × Interp :=
  (st.next, { st with heap := (st.next, t) :: st.heap, next := st.next + 1 })

/-- The object behind a pointer; `none` when the pointer is null or not live. -/
def Interp.deref (st : Interp) (p : Option Nat) : Option token_type :=
  p.bind (fun a => st.heap.lookup a)

/-- Assignment through a live pointer. -/
def Interp.store (st : Interp) (a : Nat) (t : token_type) : Interp :=
  { st with heap := st.heap.map (fun e => if e.1 = a then (a, t) else e) }

/-- The `delete` expression on a non-null pointer; `none` when the object is not live
(a double free). -/
def Interp.delete (st : Interp) (a : Nat) : Option Interp :=
  if (st.heap.lookup a).isSome then
    some { st with heap := st.heap.filter (fun e => e.1 ≠ a) }
  else none

/-- Sets the error indicator. -/
def Interp.raise (st : Interp) (e : PyExc) : Interp := { st with err := some e }

/-- `PyLong_AsLong`: the value, or `-1` with the error indicator set. -/
def PyLong_AsLong (st : Interp) (v : PyObject) : Int × Interp :=
  match asLong v with
  | .ok n => (n, st)
  | .error e => (-1, st.raise e)

/-- An argument of `PyUnicode_FromFormat`. -/
inductive FmtArg where
  | s (chars : Bytes)
  | u (n : Nat)

/-- The text `%s` produces: the C string up to its first NUL byte, decoded as UTF-8, with the
replacement of the host runtime where it is malformed. -/
def format_s (env : Env) (chars : Bytes) : PyUnicode :=
  match utf8Decode (c_str chars) with
  | some text => text
  | none => env.decodeReplace (c_str chars)

/-- `PyUnicode_FromFormat` for the directives `%s` and `%u` (an `unsigned int`). -/
def PyUnicode_FromFormat (env : Env) : List Nat → List FmtArg → PyUnicode
  | [], _ => []
  | 37 :: 115 :: fmt, .s chars :: args =>
    format_s env chars ++ PyUnicode_FromFormat env fmt args
  | 37 :: 117 :: fmt, .u n :: args =>
    decimal (n % 2 ^ 32) ++ PyUnicode_FromFormat env fmt args
  | c :: fmt, args => c :: PyUnicode_FromFormat env fmt args

/-! ## token.cpp -/

/-- The wrapper object, `struct Token`: the object header and the owned pointer. -/
structure Token where
  token : Option Nat
  deriving DecidableEq, Repr

/-- The arguments of the constructor after `PyArg_ParseTupleAndKeywords` has matched them to
the keywords `id` and `value`; both are optional. -/
structure Args where
  id : Option PyObject
  value : Option PyObject

/-- `Token_dealloc`: deletes the owned token object when the pointer is not null, then frees
the wrapper. `none` when the pointer is not live. -/
def Token_dealloc (st : Interp) (self : Token) : Option Interp :=
  match self.token with
  | none => some st
  | some a => st.delete a

/-- The block of `Token_init` that converts the `value` object to a string: `str()`, then
UTF-8, then the assignment of the resulting `char const*` to the engine string. A step that
fails leaves the string empty, and the error indicator as the failed call set it. -/
def value_str (st : Interp) (value : Option PyObject) : Bytes × Interp :=
  match value with
  | none => ([], st)
  | some value =>
    match PyObject_Str value with
    | .error e => ([], st.raise e)
    | .ok strobj =>
      match PyUnicode_AsUTF8String strobj with
      | .error e => ([], st.raise e)
      | .ok utf8 => (c_str utf8, st)

/-- The `|i` part of the argument parsing: the `id` argument as a C `int`, `0` by default. -/
def parse_id (id : Option PyObject) : Except PyExc Int :=
  match id with
  | none => .ok 0
  | some v => convert_i v

/-- `Token_init`: returns `0` or `-1`, the wrapper and the state. -/
def Token_init (env : Env) (st : Interp) (self : Token) (args : Args) : Int × Token × Interp :=
  match parse_id args.id with
  | .error e => (-1, self, st.raise e)
  | .ok token_id =>
    let r := value_str st args.value
    let a := r.2.new ⟨static_cast_token_id env token_id, r.1, position_type.ofFile (lit "?")⟩
    (0, { self with token := some a.1 }, a.2)

/-- The call `PyObject_CallObject((PyObject*)TokenType, NULL)`: allocates a zero-filled
wrapper (`alloc` tells whether the host runtime has the memory), runs `Token_init` without
arguments and destroys the wrapper again when that fails. -/
def PyObject_CallObject_TokenType (env : Env) (st : Interp) (alloc : Bool) :
    Option Token × Interp :=
  if alloc then
    match Token_init env st ⟨none⟩ ⟨none, none⟩ with
    | (r, self, st1) =>
      if r < 0 then (none, (Token_dealloc st1 self).getD st1) else (some self, st1)
  else (none, st.raise .MemoryError)

/-- `create_token`: wraps a copy of an engine token. -/
def create_token (env : Env) (st : Interp) (alloc : Bool) (token_value : token_type) :
    Option Token × Interp :=
  match PyObject_CallObject_TokenType env st alloc with
  | (none, st1) => (none, st1)
  | (some token, st1) =>
    let a := st1.new token_value
    (some { token with token := some a.1 }, a.2)

/-- `Token_str`: the lexeme decoded as UTF-8; `NULL` with the error indicator set when it
does not decode. `none` when the owned pointer is not live. -/
def Token_str (st : Interp) (self : Token) : Option (Option PyObject × Interp) :=
  match st.deref self.token with
  | none => none
  | some tok =>
    match utf8Decode tok.value with
    | some text => some (some (.unicode text), st)
    | none => some (none, st.raise .UnicodeDecodeError)

/-- `Token_repr`. -/
def Token_repr (env : Env) (st : Interp) (self : Token) : Option PyObject :=
  match st.deref self.token with
  | none => none
  | some tok =>
    some (.unicode (PyUnicode_FromFormat env (lit "Token(T_%s, '%s', %s:%u:%u)")
      [.s (env.get_token_name tok.id), .s tok.value, .s tok.position.file,
       .u tok.position.line, .u tok.position.column]))

/-- `Token_get_token_id`: the kind, converted to `long` and boxed. -/
def Token_get_token_id (st : Interp) (self : Token) : Option PyObject :=
  match st.deref self.token with
  | none => none
  | some tok => some (.long (wrapSigned 64 tok.id))

/-- `Token_set_token_id`, the function as it is written: it returns a `PyObject*`, `NULL`
when the value is no integer, else `Py_None`. The host runtime never sees this pointer as
such: see `Token_getset_set`. -/
def Token_set_token_id (env : Env) (st : Interp) (self : Token) (value : PyObject) :
    Option (Option PyObject × Interp) :=
  match PyLong_AsLong st value with
  | (id, st1) =>
    if id = -1 ∧ st1.err.isSome then some (none, st1)
    else
      match self.token, st1.deref self.token with
      | some a, some tok =>
        some (some .None, st1.store a { tok with id := static_cast_token_id env id })
      | _, _ => none

/-- The `set` entry of `Token_getset`, `(setter)Token_set_token_id`, the one place where the
function is used: the host runtime calls it through the type
`int (*)(PyObject*, PyObject*, void*)` and reads what it returns as a C `int`, for which `0`
means that the attribute was set and any other value that the setter failed. `NULL` is read
as `0` and the address of `Py_None` as its low 32 bits. -/
def Token_getset_set (env : Env) (st : Interp) (self : Token) (value : PyObject) :
    Option (Int × Interp) :=
  match Token_set_token_id env st self value with
  | none => none
  | some (none, st1) => some (0, st1)
  | some (some _, st1) => some (wrapSigned 32 env.Py_None, st1)

/-- `get_token`: a copy of the wrapped engine token, the default token for a null wrapper. -/
def get_token (env : Env) (st : Interp) (wrapper : Option Token) : Option token_type :=
  match wrapper with
  | none => some env.default_token
  | some w => st.deref w.token

/-! ## Sample inputs -/

/-- A sample environment: unsigned enumeration, three named kinds. -/
def sampleEnv : Env where
  enumSigned := false
  get_token_name := fun k =>
    if k = 0 then lit "UNKNOWN" else if k = 5 then lit "FIVE" else lit "<UnknownToken>"
  default_token := ⟨0, [], ⟨[], 1, 1⟩⟩
  decodeReplace := fun bs => bs.map (fun _ => 0xFFFD)
  Py_None := 0x7F3A5C9E2D40

/-! ## UTF-8: encoding then decoding -/

theorem utf8Decode_one (b0 : Nat) (bs : Bytes) (h : b0 < 0x80) :
    utf8Decode (b0 :: bs) = (utf8Decode bs).map (b0 :: ·) := by
  rw [utf8Decode.eq_def]
  simp only []
  rw [if_pos h]

theorem utf8Decode_two (b0 b1 : Nat) (bs : Bytes) (h : 0xC2 ≤ b0 ∧ b0 ≤ 0xDF)
    (h1 : isCont b1 = true) :
    utf8Decode (b0 :: b1 :: bs)
      = (utf8Decode bs).map (((b0 - 0xC0) * 64 + (b1 - 0x80)) :: ·) := by
  rw [utf8Decode.eq_def]
  simp only []
  rw [if_neg (by omega), if_pos h, if_pos h1]

theorem utf8Decode_three (b0 b1 b2 : Nat) (bs : Bytes) (h : 0xE0 ≤ b0 ∧ b0 ≤ 0xEF)
    (hc : isCont b1 ∧ isCont b2 ∧ (b0 = 0xE0 → 0xA0 ≤ b1) ∧ (b0 = 0xED → b1 ≤ 0x9F)) :
    utf8Decode (b0 :: b1 :: b2 :: bs)
      = (utf8Decode bs).map (((b0 - 0xE0) * 4096 + (b1 - 0x80) * 64 + (b2 - 0x80)) :: ·) := by
  rw [utf8Decode.eq_def]
  simp only []
  rw [if_neg (by omega), if_neg (by omega), if_pos h, if_pos hc]

theorem utf8Decode_four (b0 b1 b2 b3 : Nat) (bs : Bytes) (h : 0xF0 ≤ b0 ∧ b0 ≤ 0xF4)
    (hc : isCont b1 ∧ isCont b2 ∧ isCont b3 ∧ (b0 = 0xF0 → 0x90 ≤ b1)
      ∧ (b0 = 0xF4 → b1 ≤ 0x8F)) :
    utf8Decode (b0 :: b1 :: b2 :: b3 :: bs)
      = (utf8Decode bs).map
          (((b0 - 0xF0) * 262144 + (b1 - 0x80) * 4096 + (b2 - 0x80) * 64 + (b3 - 0x80)) :: ·) := by
  rw [utf8Decode.eq_def]
  simp only []
  rw [if_neg (by omega), if_neg (by omega), if_neg (by omega), if_pos h, if_pos hc]

theorem isCont_low (n : Nat) : isCont (0x80 + n % 64) = true := by
  simp only [isCont, Bool.and_eq_true, decide_eq_true_eq]
  omega

theorem utf8Decode_encodeOne_append (cp : Nat) (h : isScalar cp = true) (bs : Bytes) :
    utf8Decode (utf8EncodeOne cp ++ bs) = (utf8Decode bs).map (cp :: ·) := by
  simp only [isScalar, Bool.or_eq_true, Bool.and_eq_true, decide_eq_true_eq] at h
  unfold utf8EncodeOne
  split
  · exact utf8Decode_one cp bs (by omega)
  split
  · simp only [List.cons_append, List.nil_append]
    rw [utf8Decode_two _ _ _ (by omega) (isCont_low _)]
    have e : (0xC0 + cp / 64 - 0xC0) * 64 + (0x80 + cp % 64 - 0x80) = cp := by omega
    rw [e]
  split
  · simp only [List.cons_append, List.nil_append]
    rw [utf8Decode_three _ _ _ _ (by omega)
      ⟨isCont_low _, isCont_low _, by omega, by omega⟩]
    have e : (0xE0 + cp / 4096 - 0xE0) * 4096 + (0x80 + cp / 64 % 64 - 0x80) * 64
        + (0x80 + cp % 64 - 0x80) = cp := by omega
    rw [e]
  · simp only [List.cons_append, List.nil_append]
    rw [utf8Decode_four _ _ _ _ _ (by omega)
      ⟨isCont_low _, isCont_low _, isCont_low _, by omega, by omega⟩]
    have e : (0xF0 + cp / 262144 - 0xF0) * 262144 + (0x80 + cp / 4096 % 64 - 0x80) * 4096
        + (0x80 + cp / 64 % 64 - 0x80) * 64 + (0x80 + cp % 64 - 0x80) = cp := by omega
    rw [e]

theorem utf8Decode_utf8Encode (cps : PyUnicode) (h : cps.all isScalar = true) :
    utf8Decode (utf8Encode cps) = some cps := by
  induction cps with
  | nil => rw [utf8Encode, utf8Decode.eq_def]
  | cons cp cps ih =>
    simp only [List.all_cons, Bool.and_eq_true] at h
    rw [utf8Encode, utf8Decode_encodeOne_append cp h.1, ih h.2]
    rfl


/-! ## Lemmas on the model -/

theorem utf8EncodeOne_ne_zero (cp : Nat) (h : cp ≠ 0) : ∀ b ∈ utf8EncodeOne cp, b ≠ 0 := by
  intro b hb
  unfold utf8EncodeOne at hb
  split at hb
  · simp only [List.mem_singleton] at hb; omega
  split at hb
  · simp only [List.mem_cons, List.mem_singleton, List.not_mem_nil, or_false] at hb; omega
  split at hb
  · simp only [List.mem_cons, List.mem_singleton, List.not_mem_nil, or_false] at hb; omega
  · simp only [List.mem_cons, List.mem_singleton, List.not_mem_nil, or_false] at hb; omega

theorem c_str_utf8Encode (s : PyUnicode) :
    c_str (utf8Encode s) = utf8Encode (s.takeWhile (· ≠ 0)) := by
  induction s with
  | nil => rfl
  | cons cp cps ih =>
    by_cases h : cp = 0
    · subst h
      simp [utf8Encode, utf8EncodeOne, c_str]
    · have hp : ∀ b ∈ utf8EncodeOne cp, (decide (b ≠ 0)) = true := by
        intro b hb
        simpa using utf8EncodeOne_ne_zero cp h b hb
      have ht : (cp :: cps).takeWhile (· ≠ 0) = cp :: cps.takeWhile (· ≠ 0) := by
        simp [List.takeWhile_cons, h]
      rw [ht, utf8Encode, utf8Encode, ← ih]
      unfold c_str
      exact List.takeWhile_append_of_pos hp

theorem all_isScalar_takeWhile (s : PyUnicode) (h : s.all isScalar = true) :
    (s.takeWhile (· ≠ 0)).all isScalar = true := by
  rw [List.all_eq_true] at h ⊢
  intro x hx
  exact h x (List.takeWhile_subset _ hx)

theorem utf8Decode_c_str_utf8Encode (s : PyUnicode) (h : s.all isScalar = true) :
    utf8Decode (c_str (utf8Encode s)) = some (s.takeWhile (· ≠ 0)) := by
  rw [c_str_utf8Encode]
  exact utf8Decode_utf8Encode _ (all_isScalar_takeWhile s h)

theorem c_str_of_no_nul (bs : Bytes) (h : ∀ b ∈ bs, b ≠ 0) : c_str bs = bs := by
  unfold c_str
  rw [List.takeWhile_eq_self_iff]
  intro b hb
  simpa using h b hb

theorem wrapSigned_32_of_range (x : Int) (h1 : -(2 ^ 31) ≤ x) (h2 : x < 2 ^ 31) :
    wrapSigned 32 x = x := by
  unfold wrapSigned
  omega

theorem wrapSigned_64_of_range (x : Int) (h1 : -(2 ^ 63) ≤ x) (h2 : x < 2 ^ 63) :
    wrapSigned 64 x = x := by
  unfold wrapSigned
  omega

theorem static_cast_token_id_of_range (env : Env) (x : Int) (h : inEnumRange env x) :
    static_cast_token_id env x = x := by
  unfold inEnumRange at h
  unfold static_cast_token_id
  split
  · rename_i hs
    rw [if_pos hs] at h
    exact wrapSigned_32_of_range x h.1 h.2
  · rename_i hs
    rw [if_neg hs] at h
    unfold wrapUnsigned
    omega

theorem inEnumRange_long (env : Env) (x : Int) (h : inEnumRange env x) :
    -(2 ^ 63) ≤ x ∧ x < 2 ^ 63 := by
  unfold inEnumRange at h
  split at h <;> omega

theorem deref_new (st : Interp) (t : token_type) :
    (st.new t).2.deref (some (st.new t).1) = some t := by
  simp [Interp.new, Interp.deref, List.lookup]

theorem deref_store (st : Interp) (a : Nat) (tok t : token_type)
    (h : st.deref (some a) = some tok) : (st.store a t).deref (some a) = some t := by
  obtain ⟨heap, next, err⟩ := st
  simp only [Interp.deref, Interp.store, Option.some_bind] at h ⊢
  induction heap with
  | nil => simp [List.lookup] at h
  | cons e es ih =>
    obtain ⟨b, u⟩ := e
    by_cases hb : b = a
    · subst hb
      simp [List.lookup_cons]
    · have hab : (a == b) = false := by simpa using fun h => hb h.symm
      rw [List.lookup_cons, hab] at h
      rw [List.map_cons, List.lookup_cons]
      simp only [if_neg hb, hab]
      exact ih h

theorem value_str_heap (st : Interp) (v : Option PyObject) :
    (value_str st v).2.heap = st.heap ∧ (value_str st v).2.next = st.next := by
  unfold value_str
  split
  · exact ⟨rfl, rfl⟩
  · split
    · exact ⟨rfl, rfl⟩
    · split <;> exact ⟨rfl, rfl⟩

theorem value_str_valid (st : Interp) (v : Option PyObject) :
    ∃ text, utf8Decode (value_str st v).1 = some text := by
  unfold value_str
  split
  · exact ⟨[], by rw [utf8Decode.eq_def]⟩
  · split
    · exact ⟨[], by rw [utf8Decode.eq_def]⟩
    · rename_i strobj _
      split
      · exact ⟨[], by rw [utf8Decode.eq_def]⟩
      · rename_i utf8 hu
        unfold PyUnicode_AsUTF8String at hu
        split at hu
        · rename_i hs
          cases hu
          exact ⟨_, utf8Decode_c_str_utf8Encode strobj hs⟩
        · cases hu

theorem Token_init_ok (env : Env) (st : Interp) (self : Token) (args : Args) (k : Int)
    (h : parse_id args.id = .ok k) :
    Token_init env st self args
      = (0, ⟨some st.next⟩,
          ⟨(st.next, ⟨static_cast_token_id env k, (value_str st args.value).1,
              position_type.ofFile (lit "?")⟩) :: st.heap,
            st.next + 1, (value_str st args.value).2.err⟩) := by
  unfold Token_init
  rw [h]
  simp only [Interp.new, (value_str_heap st args.value).1, (value_str_heap st args.value).2]

theorem Token_init_zero (env : Env) (st : Interp) (self : Token) (args : Args)
    (h : (Token_init env st self args).1 = 0) : ∃ k, parse_id args.id = .ok k := by
  unfold Token_init at h
  split at h
  · simp at h
  · rename_i k hk
    exact ⟨k, hk⟩

theorem deref_Token_init (env : Env) (st : Interp) (self : Token) (args : Args) (k : Int)
    (h : parse_id args.id = .ok k) :
    (Token_init env st self args).2.2.deref (Token_init env st self args).2.1.token
      = some ⟨static_cast_token_id env k, (value_str st args.value).1,
          position_type.ofFile (lit "?")⟩ := by
  rw [Token_init_ok env st self args k h]
  simp [Interp.deref, List.lookup_cons]

theorem parse_id_long (k : Int) (h : INT_MIN ≤ k ∧ k ≤ INT_MAX) :
    parse_id (some (.long k)) = .ok k := by
  unfold INT_MIN INT_MAX at h
  have h1 : LONG_MIN ≤ k ∧ k ≤ LONG_MAX := by unfold LONG_MIN LONG_MAX; omega
  have h2 : ¬ k > INT_MAX := by unfold INT_MAX; omega
  have h3 : ¬ k < INT_MIN := by unfold INT_MIN; omega
  simp only [parse_id, convert_i, asLong, if_pos h1, if_neg h2, if_neg h3]

/-! ## The claims -/

/-- C1, evaluated at a value with a NUL character: `Token(id=0, value="a\0b")` is built, the
`str()` of the value is the three characters `a`, NUL, `b`, and `Token_str` returns the one
character `a`: the assignment of the `char const*` in `Token_init` stops at the NUL. -/
theorem Token_str_value_with_nul (env : Env) (st : Interp) (self : Token) :
    PyObject_Str (.unicode [97, 0, 98]) = .ok [97, 0, 98]
    ∧ (Token_init env st self ⟨some (.long 0), some (.unicode [97, 0, 98])⟩).1 = 0
    ∧ Token_str (Token_init env st self ⟨some (.long 0), some (.unicode [97, 0, 98])⟩).2.2
        (Token_init env st self ⟨some (.long 0), some (.unicode [97, 0, 98])⟩).2.1
      = some (some (.unicode [97]),
          (Token_init env st self ⟨some (.long 0), some (.unicode [97, 0, 98])⟩).2.2) := by
  have hp : parse_id (some (.long 0)) = .ok 0 := by rfl
  have hv : value_str st (some (.unicode [97, 0, 98])) = ([97], st) := by rfl
  refine ⟨rfl, ?_, ?_⟩
  · rw [Token_init_ok env st self _ 0 hp]
  · unfold Token_str
    rw [deref_Token_init env st self _ 0 hp]
    simp only [hv]
    rfl

/-- C2, at the integer `2^31`: the `i` conversion of the argument parsing overflows,
`Token_init` returns `-1` with `OverflowError` set, and no kind can be read back. -/
theorem Token_init_id_out_of_int :
    (Token_init sampleEnv Interp.init ⟨none⟩ ⟨some (.long 2147483648), none⟩).1 = -1
    ∧ (Token_init sampleEnv Interp.init ⟨none⟩ ⟨some (.long 2147483648), none⟩).2.2.err
        = some .OverflowError
    ∧ Token_get_token_id
        (Token_init sampleEnv Interp.init ⟨none⟩ ⟨some (.long 2147483648), none⟩).2.2
        (Token_init sampleEnv Interp.init ⟨none⟩ ⟨some (.long 2147483648), none⟩).2.1
      ≠ some (.long 2147483648) := by
  decide

/-- C2, amended: for every integer `k` that is a C `int` and that the enumeration type of the
engine can hold, `Token_init` with `id=k` succeeds and `Token_get_token_id` then returns `k`;
without an `id` argument it succeeds as well and the kind read back is `0`. -/
theorem Token_get_token_id_Token_init (env : Env) (st : Interp) (self : Token)
    (value : Option PyObject) (k : Int) (hint : INT_MIN ≤ k ∧ k ≤ INT_MAX)
    (henum : inEnumRange env k) :
    ((Token_init env st self ⟨some (.long k), value⟩).1 = 0
      ∧ Token_get_token_id (Token_init env st self ⟨some (.long k), value⟩).2.2
          (Token_init env st self ⟨some (.long k), value⟩).2.1 = some (.long k))
    ∧ ((Token_init env st self ⟨none, value⟩).1 = 0
      ∧ Token_get_token_id (Token_init env st self ⟨none, value⟩).2.2
          (Token_init env st self ⟨none, value⟩).2.1 = some (.long 0)) := by
  have hk := parse_id_long k hint
  have h0 : parse_id none = .ok 0 := rfl
  have hl := inEnumRange_long env k henum
  have hz : static_cast_token_id env 0 = 0 := by
    unfold static_cast_token_id wrapSigned wrapUnsigned
    split <;> rfl
  refine ⟨⟨?_, ?_⟩, ?_, ?_⟩
  · rw [Token_init_ok env st self _ k hk]
  · unfold Token_get_token_id
    rw [deref_Token_init env st self _ k hk]
    simp only [static_cast_token_id_of_range env k henum,
      wrapSigned_64_of_range k hl.1 hl.2]
  · rw [Token_init_ok env st self _ 0 h0]
  · unfold Token_get_token_id
    rw [deref_Token_init env st self _ 0 h0]
    simp only [hz]
    rfl

/-- Witness of C2: the kind `5` on the sample environment. -/
theorem Token_get_token_id_Token_init_witness :
    (Token_init sampleEnv Interp.init ⟨none⟩ ⟨some (.long 5), some (.long 42)⟩).1 = 0
    ∧ Token_get_token_id
        (Token_init sampleEnv Interp.init ⟨none⟩ ⟨some (.long 5), some (.long 42)⟩).2.2
        (Token_init sampleEnv Interp.init ⟨none⟩ ⟨some (.long 5), some (.long 42)⟩).2.1
      = some (.long 5) :=
  (Token_get_token_id_Token_init sampleEnv Interp.init ⟨none⟩ (some (.long 42)) 5
    (by decide) (by decide)).1

theorem Token_set_token_id_overflow (env : Env) (st : Interp) (self : Token) (k : Int)
    (h : ¬ (LONG_MIN ≤ k ∧ k ≤ LONG_MAX)) :
    Token_set_token_id env st self (.long k) = some (none, st.raise .OverflowError) := by
  simp [Token_set_token_id, PyLong_AsLong, asLong, h, Interp.raise]

/-- C3, at the integer `2^64`: `PyLong_AsLong` overflows, `Token_set_token_id` returns `NULL`
with `OverflowError` set before it touches the token, and the kind read back afterwards is
still `5`, not `2^64`. -/
theorem Token_set_token_id_out_of_long :
    Token_getset_set sampleEnv
        (Token_init sampleEnv Interp.init ⟨none⟩ ⟨some (.long 5), some (.long 42)⟩).2.2
        (Token_init sampleEnv Interp.init ⟨none⟩ ⟨some (.long 5), some (.long 42)⟩).2.1
        (.long 18446744073709551616)
      = some (0,
          (Token_init sampleEnv Interp.init ⟨none⟩
            ⟨some (.long 5), some (.long 42)⟩).2.2.raise .OverflowError)
    ∧ Token_get_token_id
        ((Token_init sampleEnv Interp.init ⟨none⟩
            ⟨some (.long 5), some (.long 42)⟩).2.2.raise .OverflowError)
        (Token_init sampleEnv Interp.init ⟨none⟩ ⟨some (.long 5), some (.long 42)⟩).2.1
      = some (.long 5)
    ∧ Token_get_token_id
        ((Token_init sampleEnv Interp.init ⟨none⟩
            ⟨some (.long 5), some (.long 42)⟩).2.2.raise .OverflowError)
        (Token_init sampleEnv Interp.init ⟨none⟩ ⟨some (.long 5), some (.long 42)⟩).2.1
      ≠ some (.long 18446744073709551616) := by
  decide

/-- C3, amended: for every initialised Token, with no exception pending at the call, and
every integer `k` that the enumeration type of the engine can hold, whether or not it names
a member of the enumeration, the call of the setter entry returns and has stored `k` as it
is: `Token_get_token_id` then returns `k`. For an integer that does not fit a C `long` the
call returns as well and the kind read back is the one from before. What the call reports
to the host runtime is not part of the statement. -/
theorem Token_get_token_id_Token_set_token_id (env : Env) (st : Interp) (self : Token)
    (tok : token_type) (k : Int) (hinit : st.deref self.token = some tok)
    (herr : st.err = none) (henum : inEnumRange env k) :
    (∃ r st1, Token_getset_set env st self (.long k) = some (r, st1)
      ∧ Token_get_token_id st1 self = some (.long k))
    ∧ ∀ n : Int, ¬ (LONG_MIN ≤ n ∧ n ≤ LONG_MAX) →
        ∃ r st1, Token_getset_set env st self (.long n) = some (r, st1)
          ∧ Token_get_token_id st1 self = Token_get_token_id st self := by
  have hl := inEnumRange_long env k henum
  have hlong : LONG_MIN ≤ k ∧ k ≤ LONG_MAX := by unfold LONG_MIN LONG_MAX; omega
  refine ⟨?_, ?_⟩
  · obtain ⟨p⟩ := self
    cases p with
    | none => simp [Interp.deref] at hinit
    | some a =>
      have hset : Token_set_token_id env st ⟨some a⟩ (.long k)
          = some (some .None, st.store a { tok with id := static_cast_token_id env k }) := by
        simp only [Token_set_token_id, PyLong_AsLong, asLong, if_pos hlong, herr, hinit]
        simp
      refine ⟨wrapSigned 32 env.Py_None,
        st.store a { tok with id := static_cast_token_id env k }, ?_, ?_⟩
      · simp only [Token_getset_set, hset]
      · unfold Token_get_token_id
        simp only [deref_store st a tok _ hinit, static_cast_token_id_of_range env k henum,
          wrapSigned_64_of_range k hl.1 hl.2]
  · intro n hn
    refine ⟨0, st.raise .OverflowError, ?_, rfl⟩
    simp only [Token_getset_set, Token_set_token_id_overflow env st self n hn]

/-- Witness of C3: `Token(id=5, value=42)`, then the kind `9`. -/
theorem Token_get_token_id_Token_set_token_id_witness :
    ∃ r st1, Token_getset_set sampleEnv
        (Token_init sampleEnv Interp.init ⟨none⟩ ⟨some (.long 5), some (.long 42)⟩).2.2
        (Token_init sampleEnv Interp.init ⟨none⟩ ⟨some (.long 5), some (.long 42)⟩).2.1
        (.long 9) = some (r, st1)
      ∧ Token_get_token_id st1
        (Token_init sampleEnv Interp.init ⟨none⟩ ⟨some (.long 5), some (.long 42)⟩).2.1
        = some (.long 9) :=
  (Token_get_token_id_Token_set_token_id sampleEnv _ _
    ⟨5, [52, 50], ⟨[63], 0, 0⟩⟩ 9 (by decide) (by decide) (by decide)).1

theorem format_s_of_text (env : Env) (chars : Bytes) (text : PyUnicode)
    (h0 : ∀ b ∈ chars, b ≠ 0) (h : utf8Decode chars = some text) :
    format_s env chars = text := by
  unfold format_s
  rw [c_str_of_no_nul chars h0, h]

theorem PyUnicode_FromFormat_token (env : Env) (name value file : Bytes) (line column : Nat) :
    PyUnicode_FromFormat env (lit "Token(T_%s, '%s', %s:%u:%u)")
        [.s name, .s value, .s file, .u line, .u column]
      = lit "Token(T_" ++ format_s env name ++ lit ", '" ++ format_s env value ++ lit "', "
          ++ format_s env file ++ lit ":" ++ decimal (line % 2 ^ 32) ++ lit ":"
          ++ decimal (column % 2 ^ 32) ++ lit ")" := by
  have hfmt : lit "Token(T_%s, '%s', %s:%u:%u)"
      = [84, 111, 107, 101, 110, 40, 84, 95, 37, 115, 44, 32, 39, 37, 115, 39, 44, 32,
          37, 115, 58, 37, 117, 58, 37, 117, 41] := by decide
  have h1 : lit "Token(T_" = [84, 111, 107, 101, 110, 40, 84, 95] := by decide
  have h2 : lit ", '" = [44, 32, 39] := by decide
  have h3 : lit "', " = [39, 44, 32] := by decide
  have h4 : lit ":" = [58] := by decide
  have h5 : lit ")" = [41] := by decide
  rw [hfmt, h1, h2, h3, h4, h5]
  simp [PyUnicode_FromFormat]

theorem Token_repr_of_text (env : Env) (st : Interp) (self : Token) (tok : token_type)
    (name text file : PyUnicode) (hinit : st.deref self.token = some tok)
    (hn0 : ∀ b ∈ env.get_token_name tok.id, b ≠ 0)
    (hn : utf8Decode (env.get_token_name tok.id) = some name)
    (hv0 : ∀ b ∈ tok.value, b ≠ 0) (hv : utf8Decode tok.value = some text)
    (hf0 : ∀ b ∈ tok.position.file, b ≠ 0) (hf : utf8Decode tok.position.file = some file)
    (hline : tok.position.line < 2 ^ 32) (hcolumn : tok.position.column < 2 ^ 32) :
    Token_repr env st self
      = some (.unicode (lit "Token(T_" ++ name ++ lit ", '" ++ text ++ lit "', " ++ file
          ++ lit ":" ++ decimal tok.position.line ++ lit ":" ++ decimal tok.position.column
          ++ lit ")")) := by
  unfold Token_repr
  rw [hinit]
  simp only [PyUnicode_FromFormat_token, format_s_of_text env _ name hn0 hn,
    format_s_of_text env _ text hv0 hv, format_s_of_text env _ file hf0 hf,
    Nat.mod_eq_of_lt hline, Nat.mod_eq_of_lt hcolumn]

/-- C4, at a wrapped engine token whose lexeme is `a`, NUL, `b`: `Token_repr` shows the
lexeme as `a` only, since `%s` reads a C string, so the result is not the text with the
whole lexeme between the quotes. -/
theorem Token_repr_lexeme_with_nul :
    (create_token sampleEnv Interp.init true ⟨5, [97, 0, 98], ⟨lit "file.c", 3, 7⟩⟩).1
      = some ⟨some 2⟩
    ∧ Token_repr sampleEnv
        (create_token sampleEnv Interp.init true ⟨5, [97, 0, 98], ⟨lit "file.c", 3, 7⟩⟩).2
        ⟨some 2⟩
      = some (.unicode (lit "Token(T_FIVE, 'a', file.c:3:7)"))
    ∧ Token_repr sampleEnv
        (create_token sampleEnv Interp.init true ⟨5, [97, 0, 98], ⟨lit "file.c", 3, 7⟩⟩).2
        ⟨some 2⟩
      ≠ some (.unicode (lit "Token(T_" ++ lit "FIVE" ++ lit ", '" ++ [97, 0, 98] ++ lit "', "
          ++ lit "file.c" ++ lit ":" ++ decimal 3 ++ lit ":" ++ decimal 7 ++ lit ")")) := by
  decide

/-- C4, amended: for every initialised Token whose kind name, lexeme and file name hold no
NUL byte and are UTF-8 (with texts `name`, `text`, `file`), and whose line and column are
values of `unsigned int`, `Token_repr` returns exactly
`Token(T_<name>, '<text>', <file>:<line>:<column>)`, the lexeme whole and unescaped. -/
theorem Token_repr_format (env : Env) (st : Interp) (self : Token) (tok : token_type)
    (name text file : PyUnicode) (hinit : st.deref self.token = some tok)
    (hn0 : ∀ b ∈ env.get_token_name tok.id, b ≠ 0)
    (hn : utf8Decode (env.get_token_name tok.id) = some name)
    (hv0 : ∀ b ∈ tok.value, b ≠ 0) (hv : utf8Decode tok.value = some text)
    (hf0 : ∀ b ∈ tok.position.file, b ≠ 0) (hf : utf8Decode tok.position.file = some file)
    (hline : tok.position.line < 2 ^ 32) (hcolumn : tok.position.column < 2 ^ 32) :
    Token_repr env st self
      = some (.unicode (lit "Token(T_" ++ name ++ lit ", '" ++ text ++ lit "', " ++ file
          ++ lit ":" ++ decimal tok.position.line ++ lit ":" ++ decimal tok.position.column
          ++ lit ")")) :=
  Token_repr_of_text env st self tok name text file hinit hn0 hn hv0 hv hf0 hf hline hcolumn

/-- Witness of C4: the wrapped engine token of kind `5` with lexeme `bar` at `file.c:3:7`. -/
theorem Token_repr_format_witness :
    Token_repr sampleEnv
        (create_token sampleEnv Interp.init true ⟨5, lit "bar", ⟨lit "file.c", 3, 7⟩⟩).2
        ⟨some 2⟩
      = some (.unicode (lit "Token(T_" ++ lit "FIVE" ++ lit ", '" ++ lit "bar" ++ lit "', "
          ++ lit "file.c" ++ lit ":" ++ decimal 3 ++ lit ":" ++ decimal 7 ++ lit ")")) :=
  Token_repr_format sampleEnv _ ⟨some 2⟩ ⟨5, lit "bar", ⟨lit "file.c", 3, 7⟩⟩
    (lit "FIVE") (lit "bar") (lit "file.c") (by decide) (by decide) (by decide) (by decide)
    (by decide) (by decide) (by decide) (by decide) (by decide)

theorem static_cast_token_id_zero (env : Env) : static_cast_token_id env 0 = 0 := by
  unfold static_cast_token_id wrapSigned wrapUnsigned
  split <;> rfl

/-- C5: for every `id` the argument parsing accepts and every `value`, `Token_init` succeeds
and the token it builds has the position of an unknown source: file `?`, line `0`,
column `0`; and when the name of kind `0` is the text `name`, `Token_repr` of
`Token(id=0, value="foo")` is `Token(T_<name>, 'foo', ?:0:0)`. -/
theorem Token_init_position (env : Env) (st : Interp) (self : Token) (args : Args) (k : Int)
    (h : parse_id args.id = .ok k) :
    ((Token_init env st self args).1 = 0
      ∧ ∃ tok, (Token_init env st self args).2.2.deref (Token_init env st self args).2.1.token
            = some tok
          ∧ tok.position = ⟨lit "?", 0, 0⟩)
    ∧ ∀ name, (∀ b ∈ env.get_token_name 0, b ≠ 0) →
        utf8Decode (env.get_token_name 0) = some name →
        Token_repr env
            (Token_init env st self ⟨some (.long 0), some (.unicode (lit "foo"))⟩).2.2
            (Token_init env st self ⟨some (.long 0), some (.unicode (lit "foo"))⟩).2.1
          = some (.unicode (lit "Token(T_" ++ name ++ lit ", 'foo', ?:0:0)")) := by
  refine ⟨⟨?_, ?_⟩, ?_⟩
  · rw [Token_init_ok env st self args k h]
  · exact ⟨_, deref_Token_init env st self args k h, rfl⟩
  · intro name hn0 hn
    have hp : parse_id (some (.long 0)) = .ok 0 := by rfl
    have hd := deref_Token_init env st self ⟨some (.long 0), some (.unicode (lit "foo"))⟩ 0 hp
    rw [static_cast_token_id_zero] at hd
    have hv : value_str st (some (.unicode (lit "foo"))) = (lit "foo", st) := by rfl
    simp only [hv] at hd
    rw [Token_repr_of_text env _ _ _ name (lit "foo") (lit "?") hd hn0 hn
      (by decide) (by decide) (by decide) (by decide) (by decide) (by decide)]
    have e : lit ", '" ++ lit "foo" ++ lit "', " ++ lit "?" ++ lit ":"
        ++ decimal (position_type.ofFile (lit "?")).line ++ lit ":"
        ++ decimal (position_type.ofFile (lit "?")).column ++ lit ")"
        = lit ", 'foo', ?:0:0)" := by decide
    simp only [List.append_assoc] at e ⊢
    rw [e]

/-- Witness of C5: `Token(id=0, value="foo")` on the sample environment, where kind `0` is
named `UNKNOWN`. -/
theorem Token_init_position_witness :
    (∃ tok, (Token_init sampleEnv Interp.init ⟨none⟩
              ⟨some (.long 0), some (.unicode (lit "foo"))⟩).2.2.deref
            (Token_init sampleEnv Interp.init ⟨none⟩
              ⟨some (.long 0), some (.unicode (lit "foo"))⟩).2.1.token = some tok
          ∧ tok.position = ⟨lit "?", 0, 0⟩)
    ∧ Token_repr sampleEnv
          (Token_init sampleEnv Interp.init ⟨none⟩
            ⟨some (.long 0), some (.unicode (lit "foo"))⟩).2.2
          (Token_init sampleEnv Interp.init ⟨none⟩
            ⟨some (.long 0), some (.unicode (lit "foo"))⟩).2.1
        = some (.unicode (lit "Token(T_" ++ lit "UNKNOWN" ++ lit ", 'foo', ?:0:0)")) :=
  ⟨(Token_init_position sampleEnv Interp.init ⟨none⟩
      ⟨some (.long 0), some (.unicode (lit "foo"))⟩ 0 rfl).1.2,
   (Token_init_position sampleEnv Interp.init ⟨none⟩
      ⟨some (.long 0), some (.unicode (lit "foo"))⟩ 0 rfl).2 (lit "UNKNOWN")
      (by decide) (by decide)⟩

/-- C6: when `create_token` returns a wrapper for an engine token `t`, `get_token` on the
wrapper returns `t` itself, with its kind, lexeme and position, and `Token_get_token_id`
returns the kind of `t` (a value of the enumeration type of the engine). -/
theorem get_token_create_token (env : Env) (st : Interp) (alloc : Bool) (t : token_type)
    (w : Token) (st1 : Interp) (h : create_token env st alloc t = (some w, st1))
    (henum : inEnumRange env t.id) :
    get_token env st1 (some w) = some t
    ∧ Token_get_token_id st1 w = some (.long t.id) := by
  have hl := inEnumRange_long env t.id henum
  unfold create_token PyObject_CallObject_TokenType at h
  cases alloc with
  | false => simp at h
  | true =>
    rw [Token_init_ok env st ⟨none⟩ ⟨none, none⟩ 0 rfl] at h
    simp only [if_true, Interp.new] at h
    simp only [show ¬ ((0 : Int) < 0) by decide, if_false, Prod.mk.injEq, Option.some.injEq]
      at h
    obtain ⟨hw, hst⟩ := h
    subst hw
    subst hst
    have hd : ∀ (heap : List (Nat × token_type)) (n : Nat) (e : Option PyExc),
        Interp.deref ⟨(n, t) :: heap, n + 1, e⟩ (some n) = some t := by
      intro heap n e
      simp [Interp.deref, List.lookup_cons]
    refine ⟨?_, ?_⟩
    · exact hd _ _ _
    · unfold Token_get_token_id
      simp only [hd, wrapSigned_64_of_range t.id hl.1 hl.2]

/-- Witness of C6: the engine token of kind `7` with lexeme `bar` at `file.c:3:7`. -/
theorem get_token_create_token_witness :
    get_token sampleEnv
        (create_token sampleEnv Interp.init true ⟨7, lit "bar", ⟨lit "file.c", 3, 7⟩⟩).2
        (some ⟨some 2⟩)
      = some ⟨7, lit "bar", ⟨lit "file.c", 3, 7⟩⟩
    ∧ Token_get_token_id
        (create_token sampleEnv Interp.init true ⟨7, lit "bar", ⟨lit "file.c", 3, 7⟩⟩).2
        ⟨some 2⟩
      = some (.long 7) :=
  get_token_create_token sampleEnv Interp.init true ⟨7, lit "bar", ⟨lit "file.c", 3, 7⟩⟩
    ⟨some 2⟩ _ (by decide) (by decide)

theorem Token_set_token_id_keeps (env : Env) (st : Interp) (self : Token) (x : PyObject)
    (tok : token_type) (r : Option PyObject) (st2 : Interp)
    (hinit : st.deref self.token = some tok)
    (h : Token_set_token_id env st self x = some (r, st2)) :
    ∃ tok2, st2.deref self.token = some tok2 ∧ tok2.value = tok.value
      ∧ tok2.position = tok.position := by
  obtain ⟨p⟩ := self
  cases p with
  | none => simp [Interp.deref] at hinit
  | some a =>
    have hr : ∀ e, (st.raise e).deref (some a) = some tok := fun e => hinit
    unfold Token_set_token_id PyLong_AsLong at h
    cases hx : asLong x with
    | error e =>
      simp only [hx, Interp.raise, Option.isSome_some, and_true, if_true, Option.some.injEq,
        Prod.mk.injEq] at h
      obtain ⟨_, hst⟩ := h
      subst hst
      exact ⟨tok, hinit, rfl, rfl⟩
    | ok n =>
      simp only [hx] at h
      split at h
      · simp only [Option.some.injEq, Prod.mk.injEq] at h
        obtain ⟨_, hst⟩ := h
        subst hst
        exact ⟨tok, hinit, rfl, rfl⟩
      · simp only [hinit, Option.some.injEq, Prod.mk.injEq] at h
        obtain ⟨_, hst⟩ := h
        subst hst
        exact ⟨_, deref_store st a tok _ hinit, rfl, rfl⟩

/-- C7, evaluated at a value whose `__str__` raises and at the text of one lone surrogate:
`Token_init` returns `0` and builds the token with an empty lexeme, which `Token_str` shows
as the empty text, but the exception of the failed conversion is left in the error
indicator, so it is still pending when the constructor returns. -/
theorem Token_init_conversion_failure (env : Env) (st : Interp) (self : Token)
    (index : Option Int) :
    ((Token_init env st self ⟨none, some (.object none index)⟩).1 = 0
      ∧ (Token_init env st self ⟨none, some (.object none index)⟩).2.2.deref
          (Token_init env st self ⟨none, some (.object none index)⟩).2.1.token
        = some ⟨0, [], ⟨lit "?", 0, 0⟩⟩
      ∧ (Token_str (Token_init env st self ⟨none, some (.object none index)⟩).2.2
          (Token_init env st self ⟨none, some (.object none index)⟩).2.1).map Prod.fst
        = some (some (.unicode []))
      ∧ (Token_init env st self ⟨none, some (.object none index)⟩).2.2.err = some .Raised)
    ∧ ((Token_init env st self ⟨none, some (.unicode [0xD800])⟩).1 = 0
      ∧ (Token_init env st self ⟨none, some (.unicode [0xD800])⟩).2.2.deref
          (Token_init env st self ⟨none, some (.unicode [0xD800])⟩).2.1.token
        = some ⟨0, [], ⟨lit "?", 0, 0⟩⟩
      ∧ (Token_str (Token_init env st self ⟨none, some (.unicode [0xD800])⟩).2.2
          (Token_init env st self ⟨none, some (.unicode [0xD800])⟩).2.1).map Prod.fst
        = some (some (.unicode []))
      ∧ (Token_init env st self ⟨none, some (.unicode [0xD800])⟩).2.2.err
        = some .UnicodeEncodeError) := by
  have h1 : value_str st (some (.object none index)) = ([], st.raise .Raised) := by rfl
  have h2 : value_str st (some (.unicode [0xD800])) = ([], st.raise .UnicodeEncodeError) := by
    rfl
  have d1 := deref_Token_init env st self ⟨none, some (.object none index)⟩ 0 rfl
  have d2 := deref_Token_init env st self ⟨none, some (.unicode [0xD800])⟩ 0 rfl
  rw [static_cast_token_id_zero] at d1 d2
  simp only [h1] at d1
  simp only [h2] at d2
  have e1 := Token_init_ok env st self ⟨none, some (.object none index)⟩ 0 rfl
  have e2 := Token_init_ok env st self ⟨none, some (.unicode [0xD800])⟩ 0 rfl
  refine ⟨⟨?_, d1, ?_, ?_⟩, ?_, d2, ?_, ?_⟩
  · rw [e1]
  · unfold Token_str
    rw [d1]
    rfl
  · rw [e1]
    simp only [h1]
    rfl
  · rw [e2]
  · unfold Token_str
    rw [d2]
    rfl
  · rw [e2]
    simp only [h2]
    rfl

theorem Token_set_token_id_of_error (env : Env) (st : Interp) (self : Token) (x : PyObject)
    (e : PyExc) (h : asLong x = .error e) :
    Token_set_token_id env st self x = some (none, st.raise e) := by
  simp [Token_set_token_id, PyLong_AsLong, h, Interp.raise]

/-- C8, evaluated at the text `nine` as the new kind: `Token_set_token_id` returns `NULL`
with `TypeError` set and leaves every engine token object as it was, but the setter entry
through which the host runtime calls it hands that `NULL` over as the `int` `0`, the value
of a setter that has set the attribute: the call does not report the error, the exception
stays pending behind it. -/
theorem Token_getset_set_not_an_integer (env : Env) (st : Interp) (self : Token) :
    Token_set_token_id env st self (.unicode (lit "nine"))
      = some (none, st.raise .TypeError)
    ∧ Token_getset_set env st self (.unicode (lit "nine")) = some (0, st.raise .TypeError)
    ∧ (st.raise .TypeError).err = some .TypeError
    ∧ (st.raise .TypeError).heap = st.heap
    ∧ (st.raise .TypeError).deref self.token = st.deref self.token := by
  have h := Token_set_token_id_of_error env st self (.unicode (lit "nine")) .TypeError rfl
  refine ⟨h, ?_, rfl, rfl, rfl⟩
  simp only [Token_getset_set, h]

theorem Token_getset_set_accepted_sample :
    (Token_getset_set sampleEnv
        (Token_init sampleEnv Interp.init ⟨none⟩ ⟨some (.long 5), some (.long 42)⟩).2.2
        (Token_init sampleEnv Interp.init ⟨none⟩ ⟨some (.long 5), some (.long 42)⟩).2.1
        (.long 9)).map Prod.fst = some 1553870144 := by
  decide

/-- C9: the lexeme of every Token that `Token_init` builds, whatever the `value`, is a
UTF-8 byte sequence, so `Token_str` decodes it; and after any call of `Token_set_token_id`
the lexeme is the same bytes and `Token_str` decodes it to the same text. -/
theorem Token_init_lexeme_utf8 (env : Env) (st : Interp) (self : Token) (args : Args)
    (h : (Token_init env st self args).1 = 0) :
    ∃ tok text,
      (Token_init env st self args).2.2.deref (Token_init env st self args).2.1.token
        = some tok
      ∧ utf8Decode tok.value = some text
      ∧ Token_str (Token_init env st self args).2.2 (Token_init env st self args).2.1
        = some (some (.unicode text), (Token_init env st self args).2.2)
      ∧ ∀ x r st2,
          Token_set_token_id env (Token_init env st self args).2.2
            (Token_init env st self args).2.1 x = some (r, st2) →
          ∃ tok2, st2.deref (Token_init env st self args).2.1.token = some tok2
            ∧ tok2.value = tok.value
            ∧ Token_str st2 (Token_init env st self args).2.1
              = some (some (.unicode text), st2) := by
  obtain ⟨k, hk⟩ := Token_init_zero env st self args h
  obtain ⟨text, ht⟩ := value_str_valid st args.value
  have hd := deref_Token_init env st self args k hk
  refine ⟨_, text, hd, ht, ?_, ?_⟩
  · unfold Token_str
    rw [hd]
    simp only [ht]
  · intro x r st2 hset
    obtain ⟨tok2, hd2, hv2, _⟩ := Token_set_token_id_keeps env _ _ x _ r st2 hd hset
    refine ⟨tok2, hd2, hv2, ?_⟩
    unfold Token_str
    rw [hd2]
    simp only [hv2, ht]

/-- Witness of C9: the text `a`, NUL, `b` as the value. -/
theorem Token_init_lexeme_utf8_witness :
    ∃ tok text,
      (Token_init sampleEnv Interp.init ⟨none⟩
          ⟨some (.long 0), some (.unicode [97, 0, 98])⟩).2.2.deref
        (Token_init sampleEnv Interp.init ⟨none⟩
          ⟨some (.long 0), some (.unicode [97, 0, 98])⟩).2.1.token = some tok
      ∧ utf8Decode tok.value = some text
      ∧ Token_str
          (Token_init sampleEnv Interp.init ⟨none⟩
            ⟨some (.long 0), some (.unicode [97, 0, 98])⟩).2.2
          (Token_init sampleEnv Interp.init ⟨none⟩
            ⟨some (.long 0), some (.unicode [97, 0, 98])⟩).2.1
        = some (some (.unicode text),
            (Token_init sampleEnv Interp.init ⟨none⟩
              ⟨some (.long 0), some (.unicode [97, 0, 98])⟩).2.2) :=
  match Token_init_lexeme_utf8 sampleEnv Interp.init ⟨none⟩
      ⟨some (.long 0), some (.unicode [97, 0, 98])⟩ (by decide) with
  | ⟨tok, text, h1, h2, h3, _⟩ => ⟨tok, text, h1, h2, h3⟩

/-- C10, evaluated at `create_token`: the call of the type object runs `Token_init`, which
allocates a first engine token object; `create_token` then overwrites the pointer with a
second one. `Token_dealloc` deletes the second only, so the first stays live; and since it
leaves the pointer as it is, a second `Token_dealloc` deletes an object that is not live. -/
theorem create_token_then_dealloc :
    create_token sampleEnv Interp.init true ⟨7, lit "bar", ⟨lit "file.c", 3, 7⟩⟩
      = (some ⟨some 2⟩,
          ⟨[(2, ⟨7, lit "bar", ⟨lit "file.c", 3, 7⟩⟩), (1, ⟨0, [], ⟨lit "?", 0, 0⟩⟩)], 3, none⟩)
    ∧ Token_dealloc
        ⟨[(2, ⟨7, lit "bar", ⟨lit "file.c", 3, 7⟩⟩), (1, ⟨0, [], ⟨lit "?", 0, 0⟩⟩)], 3, none⟩
        ⟨some 2⟩
      = some ⟨[(1, ⟨0, [], ⟨lit "?", 0, 0⟩⟩)], 3, none⟩
    ∧ Token_dealloc ⟨[(1, ⟨0, [], ⟨lit "?", 0, 0⟩⟩)], 3, none⟩ ⟨some 2⟩ = none := by
  decide

end csnake.python
